import Mathlib

/-!
# Verification of the emergency-response decision engine

Shallow embedding of `src/main.py` (classes `EmergencyIncident`,
`IncidentAssessment`, `ResourceAllocation`, `EmergencyResponseCoordinator`).

Python floats are modelled by `ℚ`: every value the severity computation
produces (integer bases plus multiples of 0.5, clamped to [1,10]) is exactly
representable in binary floating point, so rational arithmetic is exact for
the reachable values.  Python `int(x)` on a float is truncation toward zero,
modelled by `pyTrunc`.  The mutable `active_incidents` dict is modelled by an
association list with Python-dict semantics (unique keys, in-place overwrite,
insertion order); coordinator methods become explicit state-passing functions.
`datetime.now()` is an input parameter (`now`).
-/

/-- Dataclass `EmergencyIncident` from `src/main.py`. -/
structure EmergencyIncident where
  call_id : String
  timestamp : String
  location : String
  description : String
  severity_indicators : List String
  caller_contact : Option String := none
deriving DecidableEq

/-- Dataclass `IncidentAssessment` from `src/main.py`. -/
structure IncidentAssessment where
  incident_id : String
  incident_type : String
  severity_score : ℤ
  medical_priority : String
  recommended_response : String
  estimated_arrival_time : String
deriving DecidableEq

/-- Dataclass `ResourceAllocation` from `src/main.py`.  All quantities the
code ever assigns are non-negative integer literals, so the counts and the
cost are modelled in `ℕ`. -/
structure ResourceAllocation where
  allocation_id : String
  ambulances_required : ℕ
  fire_trucks_required : ℕ
  personnel_required : ℕ
  estimated_cost : ℕ
  dispatch_order : List String
deriving DecidableEq

/-- Python's substring test `w in s` on lists of characters: `w` occurs
contiguously in `s` (the empty string is in every string). -/
def charsContain : List Char → List Char → Bool
  | [], w => w.isEmpty
  | c :: rest, w => w.isPrefixOf (c :: rest) || charsContain rest w

/-- The lowered description `incident.description.lower()` as a character list (the keyword matching
in the source operates on the lower-cased description). -/
def descriptionLower (description : String) : List Char :=
  description.data.map Char.toLower

/-- The source's `any(word in description_lower for word in keywords)`. -/
def matchesAny (keywords : List String) (descLower : List Char) : Bool :=
  keywords.any (fun w => charsContain descLower w.data)

/-- Keyword group for the CARDIAC branch of `_assess_incident`. -/
def cardiacKeywords : List String := ["cardiac", "heart", "chest pain"]

/-- Keyword group for the TRAUMA branch of `_assess_incident`. -/
def traumaKeywords : List String := ["trauma", "accident", "hit", "crash"]

/-- Keyword group for the FIRE branch of `_assess_incident`. -/
def fireKeywords : List String := ["fire", "smoke", "burn"]

/-- The if/elif keyword classification at the top of `_assess_incident`:
incident type together with its base severity. -/
def classifyIncident (description : String) : String × ℤ :=
  if matchesAny cardiacKeywords (descriptionLower description) then ("CARDIAC", 8)
  else if matchesAny traumaKeywords (descriptionLower description) then ("TRAUMA", 7)
  else if matchesAny fireKeywords (descriptionLower description) then ("FIRE", 8)
  else ("MEDICAL", 5)

/-- The source's `severity = base_severity + len(incident.severity_indicators) * 0.5`. -/
def rawSeverity (base : ℤ) (numIndicators : ℕ) : ℚ :=
  (base : ℚ) + (numIndicators : ℚ) * (1 / 2)

/-- The clamp `severity = min(10, max(1, severity))` applied to the raw severity. -/
def clampedSeverity (base : ℤ) (numIndicators : ℕ) : ℚ :=
  min 10 (max 1 (rawSeverity base numIndicators))

/-- Python `int(x)` on a float: truncation toward zero. -/
def pyTrunc (q : ℚ) : ℤ :=
  if q < 0 then -⌊-q⌋ else ⌊q⌋

/-- The priority ladder in `_assess_incident`, evaluated (as in the source)
on the clamped float severity before the `int(...)` cast. -/
def priorityOf (severity : ℚ) : String :=
  if severity ≥ 8 then "CRITICAL"
  else if severity ≥ 6 then "HIGH"
  else if severity ≥ 4 then "MEDIUM"
  else "LOW"

/-- Modelled from the spec: the normative band table on the *truncated
integer* severity score (score≥8→CRITICAL, ≥6→HIGH, ≥4→MEDIUM, else LOW),
to be compared with the source's `priorityOf` on the pre-truncation value. -/
def priorityBand (score : ℤ) : String :=
  if score ≥ 8 then "CRITICAL"
  else if score ≥ 6 then "HIGH"
  else if score ≥ 4 then "MEDIUM"
  else "LOW"

/-- Method `EmergencyResponseCoordinator._assess_incident`. -/
def assess_incident (incident : EmergencyIncident) : IncidentAssessment :=
  { incident_id := incident.call_id
    incident_type := (classifyIncident incident.description).1
    severity_score :=
      pyTrunc (clampedSeverity (classifyIncident incident.description).2
        incident.severity_indicators.length)
    medical_priority :=
      priorityOf (clampedSeverity (classifyIncident incident.description).2
        incident.severity_indicators.length)
    recommended_response :=
      "Deploy specialized " ++ (classifyIncident incident.description).1 ++ " response team"
    estimated_arrival_time := "5-8 minutes" }

/-- The if/elif branch table of `_allocate_resources`:
(ambulances, fire_trucks, personnel). -/
def allocCounts (assessment : IncidentAssessment) : ℕ × ℕ × ℕ :=
  if assessment.incident_type = "CARDIAC" then (2, 0, 6)
  else if assessment.incident_type = "TRAUMA" then
    (if assessment.severity_score ≥ 7 then 2 else 1,
     if assessment.severity_score ≥ 8 then 1 else 0,
     if assessment.severity_score ≥ 8 then 8 else 4)
  else if assessment.incident_type = "FIRE" then
    (2, if assessment.severity_score ≥ 8 then 3 else 2, 12)
  else (1, 0, 2)

/-- Method `EmergencyResponseCoordinator._allocate_resources`. -/
def allocate_resources (assessment : IncidentAssessment) : ResourceAllocation :=
  { allocation_id := "ALLOC-" ++ assessment.incident_id
    ambulances_required := (allocCounts assessment).1
    fire_trucks_required := (allocCounts assessment).2.1
    personnel_required := (allocCounts assessment).2.2
    estimated_cost :=
      (allocCounts assessment).1 * 500 + (allocCounts assessment).2.1 * 1000 +
        (allocCounts assessment).2.2 * 100
    dispatch_order :=
      (List.range ((allocCounts assessment).1 + (allocCounts assessment).2.1)).map
        (fun i => "Unit-" ++ toString i) }

/-- One value of the `active_incidents` dict: the composed record stored by
`process_emergency_call`. -/
structure ActiveIncidentEntry where
  incident : EmergencyIncident
  assessment : IncidentAssessment
  resources : ResourceAllocation
  status : String
  timestamp : String
deriving DecidableEq

/-- Lookup in a Python dict modelled as an association list
(`self.active_incidents.get(call_id)`). -/
def dictGet (d : List (String × ActiveIncidentEntry)) (k : String) :
    Option ActiveIncidentEntry :=
  match d with
  | [] => none
  | (k', v) :: rest => if k' = k then some v else dictGet rest k

/-- Python dict assignment `d[k] = v`: overwrite in place if the key is
present, else append. -/
def dictSet (d : List (String × ActiveIncidentEntry)) (k : String)
    (v : ActiveIncidentEntry) : List (String × ActiveIncidentEntry) :=
  match d with
  | [] => [(k, v)]
  | (k', v') :: rest => if k' = k then (k, v) :: rest else (k', v') :: dictSet rest k v

/-- Assignment `self.active_incidents[call_id]` status field: update the status
field of the entry under `k` (a Python dict has at most one). -/
def dictSetStatus (d : List (String × ActiveIncidentEntry)) (k status : String) :
    List (String × ActiveIncidentEntry) :=
  match d with
  | [] => []
  | (k', v) :: rest =>
      if k' = k then (k', { v with status := status }) :: rest
      else (k', v) :: dictSetStatus rest k status

/-- The mutable state of `EmergencyResponseCoordinator`: the
`active_incidents` registry (the other fields play no part in the core). -/
structure CoordinatorState where
  active_incidents : List (String × ActiveIncidentEntry)
deriving DecidableEq

/-- The response dictionary built by `process_emergency_call`. -/
structure EmergencyResponse where
  call_id : String
  incident_type : String
  severity : ℤ
  priority : String
  dispatch_plan : List String
  estimated_arrival : String
  status : String
deriving DecidableEq

/-- Method `EmergencyResponseCoordinator.process_emergency_call`, with
`datetime.now().isoformat()` passed in as `now`. -/
def process_emergency_call (s : CoordinatorState) (incident : EmergencyIncident)
    (now : String) : EmergencyResponse × CoordinatorState :=
  ({ call_id := incident.call_id
     incident_type := (assess_incident incident).incident_type
     severity := (assess_incident incident).severity_score
     priority := (assess_incident incident).medical_priority
     dispatch_plan := (allocate_resources (assess_incident incident)).dispatch_order
     estimated_arrival := (assess_incident incident).estimated_arrival_time
     status := "DISPATCHED" },
   { active_incidents :=
       dictSet s.active_incidents incident.call_id
         { incident := incident
           assessment := assess_incident incident
           resources := allocate_resources (assess_incident incident)
           status := "DISPATCHED"
           timestamp := now } })

/-- Method `EmergencyResponseCoordinator.get_incident_status`. -/
def get_incident_status (s : CoordinatorState) (call_id : String) :
    Option ActiveIncidentEntry :=
  dictGet s.active_incidents call_id

/-- Method `EmergencyResponseCoordinator.update_incident_status`. -/
def update_incident_status (s : CoordinatorState) (call_id status : String) :
    Bool × CoordinatorState :=
  if (dictGet s.active_incidents call_id).isSome then
    (true, { active_incidents := dictSetStatus s.active_incidents call_id status })
  else (false, s)

/-! ## Severity and priority lemmas -/

lemma one_le_clampedSeverity (base : ℤ) (k : ℕ) : 1 ≤ clampedSeverity base k :=
  le_min (by norm_num) (le_max_left _ _)

lemma clampedSeverity_le_ten (base : ℤ) (k : ℕ) : clampedSeverity base k ≤ 10 :=
  min_le_left _ _

lemma pyTrunc_eq_floor {q : ℚ} (h : 0 ≤ q) : pyTrunc q = ⌊q⌋ := by
  unfold pyTrunc
  rw [if_neg (not_lt.mpr h)]

/-- The priority read off the clamped pre-truncation severity agrees with the
spec's band table on the truncated score: all band thresholds are integers,
so `b ≤ q ↔ b ≤ ⌊q⌋` settles every branch. -/
lemma priorityOf_eq_priorityBand {q : ℚ} (h : 0 ≤ q) :
    priorityOf q = priorityBand (pyTrunc q) := by
  rw [pyTrunc_eq_floor h]
  unfold priorityOf priorityBand
  have h8 : ((8 : ℤ) ≤ ⌊q⌋) ↔ ((8 : ℚ) ≤ q) := by rw [Int.le_floor]; norm_num
  have h6 : ((6 : ℤ) ≤ ⌊q⌋) ↔ ((6 : ℚ) ≤ q) := by rw [Int.le_floor]; norm_num
  have h4 : ((4 : ℤ) ≤ ⌊q⌋) ↔ ((4 : ℚ) ≤ q) := by rw [Int.le_floor]; norm_num
  simp only [ge_iff_le, h8, h6, h4]

lemma five_le_base (d : String) : 5 ≤ (classifyIncident d).2 := by
  unfold classifyIncident
  split
  · norm_num
  split
  · norm_num
  split
  · norm_num
  · norm_num

lemma five_le_clampedSeverity (d : String) (k : ℕ) :
    5 ≤ clampedSeverity (classifyIncident d).2 k := by
  unfold clampedSeverity rawSeverity
  refine le_min (by norm_num) (le_trans ?_ (le_max_right _ _))
  have hb : (5 : ℚ) ≤ ((classifyIncident d).2 : ℚ) := by exact_mod_cast five_le_base d
  have hk : 0 ≤ (k : ℚ) * (1 / 2) := by positivity
  linarith

/-- C1: the medical priority returned by the assessment is the band table
applied to the truncated integer severity score (≥8 CRITICAL, ≥6 HIGH,
≥4 MEDIUM, else LOW); deriving the priority from the truncated score and
from the clamped pre-truncation value agree on every input. -/
theorem assess_priority_is_band_of_truncated_score (inc : EmergencyIncident) :
    (assess_incident inc).medical_priority
      = priorityBand (assess_incident inc).severity_score := by
  show priorityOf (clampedSeverity (classifyIncident inc.description).2
        inc.severity_indicators.length)
      = priorityBand (pyTrunc (clampedSeverity (classifyIncident inc.description).2
        inc.severity_indicators.length))
  exact priorityOf_eq_priorityBand
    (le_trans zero_le_one (one_le_clampedSeverity _ _))

/-- C3: the stored severity score is the base severity plus 0.5 per severity
indicator, clamped to [1,10] and then truncated to an integer, and therefore
always lies in [1,10]. -/
theorem severity_score_formula_and_bounds (inc : EmergencyIncident) :
    (assess_incident inc).severity_score
        = pyTrunc (min 10 (max 1 (((classifyIncident inc.description).2 : ℚ)
            + (inc.severity_indicators.length : ℚ) * (1 / 2))))
      ∧ 1 ≤ (assess_incident inc).severity_score
      ∧ (assess_incident inc).severity_score ≤ 10 := by
  have h0 : (0 : ℚ) ≤ clampedSeverity (classifyIncident inc.description).2
      inc.severity_indicators.length :=
    le_trans zero_le_one (one_le_clampedSeverity _ _)
  refine ⟨rfl, ?_, ?_⟩
  · show 1 ≤ pyTrunc (clampedSeverity (classifyIncident inc.description).2
        inc.severity_indicators.length)
    rw [pyTrunc_eq_floor h0]
    exact Int.le_floor.mpr (by exact_mod_cast one_le_clampedSeverity _ _)
  · show pyTrunc (clampedSeverity (classifyIncident inc.description).2
        inc.severity_indicators.length) ≤ 10
    rw [pyTrunc_eq_floor h0]
    have hfl := Int.floor_le (clampedSeverity (classifyIncident inc.description).2
        inc.severity_indicators.length)
    have h10 := clampedSeverity_le_ten (classifyIncident inc.description).2
        inc.severity_indicators.length
    exact_mod_cast le_trans hfl h10

/-- C9: every keyword branch assigns base severity at least 5, indicators only
increase severity, so the assessed severity score is at least 5 and the LOW
priority band is unreachable. -/
theorem severity_at_least_five_and_priority_never_low (inc : EmergencyIncident) :
    5 ≤ (classifyIncident inc.description).2
      ∧ 5 ≤ (assess_incident inc).severity_score
      ∧ (assess_incident inc).medical_priority ≠ "LOW" := by
  have h5 := five_le_clampedSeverity inc.description inc.severity_indicators.length
  refine ⟨five_le_base inc.description, ?_, ?_⟩
  · show 5 ≤ pyTrunc (clampedSeverity (classifyIncident inc.description).2
        inc.severity_indicators.length)
    rw [pyTrunc_eq_floor (by linarith)]
    exact Int.le_floor.mpr (by exact_mod_cast h5)
  · show priorityOf (clampedSeverity (classifyIncident inc.description).2
        inc.severity_indicators.length) ≠ "LOW"
    unfold priorityOf
    split
    · decide
    split
    · decide
    split
    · decide
    · next h =>
        simp only [ge_iff_le, not_le] at h
        linarith

/-! ## Classification claims -/

/-- C2: classification is by the first matching keyword group in the fixed
order CARDIAC > TRAUMA > FIRE > MEDICAL, regardless of keyword position in
the text; in particular any incident described "cardiac event during a fire"
is assessed as CARDIAC. -/
theorem classification_first_match_wins (inc : EmergencyIncident) :
    (matchesAny cardiacKeywords (descriptionLower inc.description) = true →
       (assess_incident inc).incident_type = "CARDIAC")
  ∧ (matchesAny cardiacKeywords (descriptionLower inc.description) = false →
     matchesAny traumaKeywords (descriptionLower inc.description) = true →
       (assess_incident inc).incident_type = "TRAUMA")
  ∧ (matchesAny cardiacKeywords (descriptionLower inc.description) = false →
     matchesAny traumaKeywords (descriptionLower inc.description) = false →
     matchesAny fireKeywords (descriptionLower inc.description) = true →
       (assess_incident inc).incident_type = "FIRE")
  ∧ (matchesAny cardiacKeywords (descriptionLower inc.description) = false →
     matchesAny traumaKeywords (descriptionLower inc.description) = false →
     matchesAny fireKeywords (descriptionLower inc.description) = false →
       (assess_incident inc).incident_type = "MEDICAL")
  ∧ (inc.description = "cardiac event during a fire" →
       (assess_incident inc).incident_type = "CARDIAC") := by
  refine ⟨fun h1 => ?_, fun h1 h2 => ?_, fun h1 h2 h3 => ?_, fun h1 h2 h3 => ?_,
    fun hd => ?_⟩
  · show (classifyIncident inc.description).1 = "CARDIAC"
    unfold classifyIncident
    simp [h1]
  · show (classifyIncident inc.description).1 = "TRAUMA"
    unfold classifyIncident
    simp [h1, h2]
  · show (classifyIncident inc.description).1 = "FIRE"
    unfold classifyIncident
    simp [h1, h2, h3]
  · show (classifyIncident inc.description).1 = "MEDICAL"
    unfold classifyIncident
    simp [h1, h2, h3]
  · show (classifyIncident inc.description).1 = "CARDIAC"
    rw [hd]
    decide

/-- Witness for C2 at a concrete incident whose description holds keywords of
both the CARDIAC and the FIRE groups. -/
theorem classification_first_match_wins_witness :
    (assess_incident
        { call_id := "c1", timestamp := "", location := "",
          description := "cardiac event during a fire",
          severity_indicators := [] }).incident_type = "CARDIAC" :=
  (classification_first_match_wins _).2.2.2.2 rfl

/-! ## Allocation claims -/

/-- C4: a TRAUMA assessment with severity score 8 is allocated 2 ambulances,
1 fire truck, 8 personnel, cost 2800 (= 2*500 + 1*1000 + 8*100), and a
dispatch order of length 3. -/
theorem trauma_severity8_allocation (a : IncidentAssessment)
    (ht : a.incident_type = "TRAUMA") (hs : a.severity_score = 8) :
    (allocate_resources a).ambulances_required = 2
  ∧ (allocate_resources a).fire_trucks_required = 1
  ∧ (allocate_resources a).personnel_required = 8
  ∧ (allocate_resources a).estimated_cost = 2800
  ∧ (allocate_resources a).estimated_cost
      = (allocate_resources a).ambulances_required * 500
        + (allocate_resources a).fire_trucks_required * 1000
        + (allocate_resources a).personnel_required * 100
  ∧ (allocate_resources a).dispatch_order.length = 3 := by
  have hc : allocCounts a = (2, 1, 8) := by
    unfold allocCounts
    rw [ht, hs]
    decide
  refine ⟨?_, ?_, ?_, ?_, rfl, ?_⟩ <;>
    simp [allocate_resources, hc]

/-- Witness for C4 at a concrete TRAUMA assessment of severity 8. -/
theorem trauma_severity8_allocation_witness :
    (allocate_resources
        { incident_id := "i1", incident_type := "TRAUMA", severity_score := 8,
          medical_priority := "CRITICAL", recommended_response := "",
          estimated_arrival_time := "" }).estimated_cost = 2800 :=
  (trauma_severity8_allocation _ rfl rfl).2.2.2.1

/-- C6: the dispatch order consists of exactly
ambulances_required + fire_trucks_required labels, reading
"Unit-0", "Unit-1", ... in ascending index order. -/
theorem dispatch_order_labels (a : IncidentAssessment) :
    (allocate_resources a).dispatch_order.length
        = (allocate_resources a).ambulances_required
          + (allocate_resources a).fire_trucks_required
  ∧ ∀ i : ℕ, i < (allocate_resources a).ambulances_required
          + (allocate_resources a).fire_trucks_required →
      (allocate_resources a).dispatch_order[i]? = some ("Unit-" ++ toString i) := by
  constructor
  · show ((List.range ((allocCounts a).1 + (allocCounts a).2.1)).map
        (fun i => "Unit-" ++ toString i)).length = (allocCounts a).1 + (allocCounts a).2.1
    simp
  · intro i hi
    have hi' : i < (allocCounts a).1 + (allocCounts a).2.1 := hi
    show ((List.range ((allocCounts a).1 + (allocCounts a).2.1)).map
        (fun i => "Unit-" ++ toString i))[i]? = some ("Unit-" ++ toString i)
    rw [List.getElem?_map, List.getElem?_range hi']
    rfl

/-- Witness for C6: the inner index bound discharged at a concrete
assessment and index 0. -/
theorem dispatch_order_labels_witness :
    (allocate_resources
        { incident_id := "i1", incident_type := "MEDICAL", severity_score := 5,
          medical_priority := "MEDIUM", recommended_response := "",
          estimated_arrival_time := "" }).dispatch_order[0]?
      = some ("Unit-" ++ toString 0) :=
  (dispatch_order_labels _).2 0 (by decide)

/-- C10: every allocation assigns at least one ambulance, so the dispatch
order is never empty. -/
theorem at_least_one_ambulance_dispatch_nonempty (a : IncidentAssessment) :
    1 ≤ (allocate_resources a).ambulances_required
  ∧ (allocate_resources a).dispatch_order ≠ [] := by
  have h1 : 1 ≤ (allocCounts a).1 := by
    unfold allocCounts
    split
    · norm_num
    split
    · split <;> norm_num
    split
    · norm_num
    · norm_num
  refine ⟨h1, ?_⟩
  have hlen : (allocate_resources a).dispatch_order.length
      = (allocCounts a).1 + (allocCounts a).2.1 := by
    show ((List.range ((allocCounts a).1 + (allocCounts a).2.1)).map
        (fun i => "Unit-" ++ toString i)).length = (allocCounts a).1 + (allocCounts a).2.1
    simp
  have hpos : 0 < (allocate_resources a).dispatch_order.length := by
    rw [hlen]
    omega
  exact List.ne_nil_of_length_pos hpos

/-! ## Registry lemmas -/

lemma dictGet_dictSet_self (d : List (String × ActiveIncidentEntry)) (k : String)
    (v : ActiveIncidentEntry) : dictGet (dictSet d k v) k = some v := by
  induction d with
  | nil => simp [dictSet, dictGet]
  | cons p rest ih =>
      obtain ⟨k', v'⟩ := p
      by_cases h : k' = k
      · simp [dictSet, dictGet, h]
      · simp [dictSet, dictGet, h, ih]

lemma dictGet_dictSetStatus_self (d : List (String × ActiveIncidentEntry))
    (k st : String) (e : ActiveIncidentEntry) (h : dictGet d k = some e) :
    dictGet (dictSetStatus d k st) k = some { e with status := st } := by
  induction d with
  | nil => simp [dictGet] at h
  | cons p rest ih =>
      obtain ⟨k', v⟩ := p
      by_cases hk : k' = k
      · rw [dictGet, if_pos hk] at h
        cases h
        rw [dictSetStatus, if_pos hk, dictGet, if_pos hk]
      · rw [dictGet, if_neg hk] at h
        rw [dictSetStatus, if_neg hk, dictGet, if_neg hk]
        exact ih h

lemma dictGet_dictSetStatus_other (d : List (String × ActiveIncidentEntry))
    (k k' st : String) (h : k' ≠ k) :
    dictGet (dictSetStatus d k st) k' = dictGet d k' := by
  induction d with
  | nil => rfl
  | cons p rest ih =>
      obtain ⟨k0, v⟩ := p
      by_cases hk : k0 = k
      · have hk0 : ¬ k0 = k' := fun hh => h (hh ▸ hk ▸ rfl)
        rw [dictSetStatus, if_pos hk, dictGet, if_neg hk0, dictGet, if_neg hk0]
      · rw [dictSetStatus, if_neg hk, dictGet, dictGet]
        by_cases hk0 : k0 = k'
        · rw [if_pos hk0, if_pos hk0]
        · rw [if_neg hk0, if_neg hk0]
          exact ih

lemma update_found (d : List (String × ActiveIncidentEntry)) (k st : String)
    (e : ActiveIncidentEntry) (h : dictGet d k = some e) :
    update_incident_status ⟨d⟩ k st = (true, ⟨dictSetStatus d k st⟩) := by
  unfold update_incident_status
  rw [show (⟨d⟩ : CoordinatorState).active_incidents = d from rfl, h]
  rfl

lemma update_not_found (d : List (String × ActiveIncidentEntry)) (k st : String)
    (h : dictGet d k = none) :
    update_incident_status ⟨d⟩ k st = (false, ⟨d⟩) := by
  unfold update_incident_status
  rw [show (⟨d⟩ : CoordinatorState).active_incidents = d from rfl, h]
  rfl

/-! ## Registry claims -/

/-- C8: update_incident_status on an absent call id returns false and leaves
the state unchanged; on a present id it returns true and changes only that
entry's status field (any status string is accepted unchecked), leaving every
other key's lookup unchanged. -/
theorem update_status_semantics (s : CoordinatorState) (call_id status : String) :
    (dictGet s.active_incidents call_id = none →
       update_incident_status s call_id status = (false, s))
  ∧ ∀ e : ActiveIncidentEntry, dictGet s.active_incidents call_id = some e →
      (update_incident_status s call_id status).1 = true
      ∧ dictGet (update_incident_status s call_id status).2.active_incidents call_id
          = some { e with status := status }
      ∧ ∀ k' : String, k' ≠ call_id →
          dictGet (update_incident_status s call_id status).2.active_incidents k'
            = dictGet s.active_incidents k' := by
  obtain ⟨d⟩ := s
  constructor
  · intro h
    exact update_not_found d call_id status h
  · intro e he
    rw [update_found d call_id status e he]
    exact ⟨rfl, dictGet_dictSetStatus_self d call_id status e he,
      fun k' hk => dictGet_dictSetStatus_other d call_id k' status hk⟩

/-- An incident with no matching keywords, used to instantiate the registry
claims at concrete states. -/
def medicalIncident : EmergencyIncident :=
  { call_id := "911-1", timestamp := "2024-01-01T00:00:00",
    location := "5th Ave", description := "patient feeling dizzy",
    severity_indicators := [] }

/-- A concrete registry entry, used to instantiate the registry claims. -/
def sampleEntry : ActiveIncidentEntry :=
  { incident := medicalIncident
    assessment :=
      { incident_id := "911-1", incident_type := "MEDICAL", severity_score := 5,
        medical_priority := "MEDIUM",
        recommended_response := "Deploy specialized MEDICAL response team",
        estimated_arrival_time := "5-8 minutes" }
    resources :=
      { allocation_id := "ALLOC-911-1", ambulances_required := 1,
        fire_trucks_required := 0, personnel_required := 2,
        estimated_cost := 700, dispatch_order := ["Unit-0"] }
    status := "DISPATCHED"
    timestamp := "t0" }

/-- Witness for C8: the absent branch on the empty registry and the present
branch on a one-entry registry. -/
theorem update_status_semantics_witness :
    update_incident_status ⟨[]⟩ "911-1" "RESOLVED" = (false, ⟨[]⟩)
  ∧ (update_incident_status ⟨[("911-1", sampleEntry)]⟩ "911-1" "EN_ROUTE").1 = true :=
  ⟨(update_status_semantics ⟨[]⟩ "911-1" "RESOLVED").1 rfl,
   ((update_status_semantics ⟨[("911-1", sampleEntry)]⟩ "911-1" "EN_ROUTE").2
      sampleEntry (by decide)).1⟩

/-- C7: after processing a call, its id maps to the composed entry with
status DISPATCHED; a subsequent update to "RESOLVED" returns true and the
lookup reflects "RESOLVED"; reprocessing the same call id overwrites the
entry without error (last write wins). -/
theorem registry_roundtrip (s : CoordinatorState) (inc inc' : EmergencyIncident)
    (now now' : String) (h : inc'.call_id = inc.call_id) :
    get_incident_status (process_emergency_call s inc now).2 inc.call_id
        = some { incident := inc, assessment := assess_incident inc,
                 resources := allocate_resources (assess_incident inc),
                 status := "DISPATCHED", timestamp := now }
  ∧ (update_incident_status (process_emergency_call s inc now).2
        inc.call_id "RESOLVED").1 = true
  ∧ get_incident_status
        (update_incident_status (process_emergency_call s inc now).2
          inc.call_id "RESOLVED").2 inc.call_id
      = some { incident := inc, assessment := assess_incident inc,
               resources := allocate_resources (assess_incident inc),
               status := "RESOLVED", timestamp := now }
  ∧ get_incident_status
        (process_emergency_call (process_emergency_call s inc now).2 inc' now').2
        inc.call_id
      = some { incident := inc', assessment := assess_incident inc',
               resources := allocate_resources (assess_incident inc'),
               status := "DISPATCHED", timestamp := now' } := by
  have hset : dictGet (dictSet s.active_incidents inc.call_id
      { incident := inc, assessment := assess_incident inc,
        resources := allocate_resources (assess_incident inc),
        status := "DISPATCHED", timestamp := now }) inc.call_id
      = some { incident := inc, assessment := assess_incident inc,
               resources := allocate_resources (assess_incident inc),
               status := "DISPATCHED", timestamp := now } :=
    dictGet_dictSet_self _ _ _
  have hproc : (process_emergency_call s inc now).2
      = ⟨dictSet s.active_incidents inc.call_id
          { incident := inc, assessment := assess_incident inc,
            resources := allocate_resources (assess_incident inc),
            status := "DISPATCHED", timestamp := now }⟩ := rfl
  refine ⟨hset, ?_, ?_, ?_⟩
  · rw [hproc, update_found _ _ _ _ hset]
  · rw [hproc, update_found _ _ _ _ hset]
    exact dictGet_dictSetStatus_self _ _ _ _ hset
  · rw [hproc]
    rw [← h]
    exact dictGet_dictSet_self _ _ _

/-- Witness for C7: reprocessing the same concrete call id and resolving it
on an initially empty registry. -/
theorem registry_roundtrip_witness :
    (update_incident_status (process_emergency_call ⟨[]⟩ medicalIncident "t1").2
        medicalIncident.call_id "RESOLVED").1 = true :=
  (registry_roundtrip ⟨[]⟩ medicalIncident medicalIncident "t1" "t2" rfl).2.1

/-! ## End-to-end claim -/

/-- C5: the demonstration incident — id "911-2024-001", description "Patient
experiencing severe chest pain, unresponsive", 3 severity indicators —
assesses as CARDIAC with severity 9 and priority CRITICAL, is allocated 2
ambulances, 0 fire trucks, 6 personnel at cost 1600, and the response's
dispatch plan is ["Unit-0", "Unit-1"]. -/
theorem end_to_end_cardiac_call (s : CoordinatorState) (now : String)
    (inc : EmergencyIncident)
    (hid : inc.call_id = "911-2024-001")
    (hdesc : inc.description = "Patient experiencing severe chest pain, unresponsive")
    (hlen : inc.severity_indicators.length = 3) :
    (process_emergency_call s inc now).1.incident_type = "CARDIAC"
  ∧ (process_emergency_call s inc now).1.severity = 9
  ∧ (process_emergency_call s inc now).1.priority = "CRITICAL"
  ∧ (allocate_resources (assess_incident inc)).ambulances_required = 2
  ∧ (allocate_resources (assess_incident inc)).fire_trucks_required = 0
  ∧ (allocate_resources (assess_incident inc)).personnel_required = 6
  ∧ (allocate_resources (assess_incident inc)).estimated_cost = 1600
  ∧ (process_emergency_call s inc now).1.dispatch_plan = ["Unit-0", "Unit-1"] := by
  have hclass : classifyIncident inc.description = ("CARDIAC", 8) := by
    rw [hdesc]
    decide
  have hsev : clampedSeverity 8 3 = 19 / 2 := by
    unfold clampedSeverity rawSeverity
    push_cast
    norm_num
  have htrunc : pyTrunc (clampedSeverity 8 3) = 9 := by
    rw [hsev]
    unfold pyTrunc
    rw [if_neg (by norm_num)]
    norm_num [Int.floor_eq_iff]
  have hprio : priorityOf (clampedSeverity 8 3) = "CRITICAL" := by
    rw [hsev]
    unfold priorityOf
    rw [if_pos (by norm_num)]
  have hassess : assess_incident inc
      = { incident_id := "911-2024-001", incident_type := "CARDIAC",
          severity_score := 9, medical_priority := "CRITICAL",
          recommended_response := "Deploy specialized CARDIAC response team",
          estimated_arrival_time := "5-8 minutes" } := by
    unfold assess_incident
    rw [hclass, hid, hlen]
    rw [show (("CARDIAC", (8 : ℤ)) : String × ℤ).2 = 8 from rfl,
      show (("CARDIAC", (8 : ℤ)) : String × ℤ).1 = "CARDIAC" from rfl, htrunc, hprio]
    rfl
  have halloc : allocate_resources (assess_incident inc)
      = { allocation_id := "ALLOC-911-2024-001", ambulances_required := 2,
          fire_trucks_required := 0, personnel_required := 6,
          estimated_cost := 1600, dispatch_order := ["Unit-0", "Unit-1"] } := by
    rw [hassess]
    decide
  refine ⟨?_, ?_, ?_, ?_, ?_, ?_, ?_, ?_⟩
  · show (assess_incident inc).incident_type = "CARDIAC"
    rw [hassess]
  · show (assess_incident inc).severity_score = 9
    rw [hassess]
  · show (assess_incident inc).medical_priority = "CRITICAL"
    rw [hassess]
  · rw [halloc]
  · rw [halloc]
  · rw [halloc]
  · rw [halloc]
  · show (allocate_resources (assess_incident inc)).dispatch_order = ["Unit-0", "Unit-1"]
    rw [halloc]

/-- The demonstration incident from `main()` in `src/main.py`. -/
def cardiacIncident : EmergencyIncident :=
  { call_id := "911-2024-001", timestamp := "2024-01-01T00:00:00",
    location := "123 Main St, Hospital District",
    description := "Patient experiencing severe chest pain, unresponsive",
    severity_indicators := ["chest pain", "shortness of breath", "unresponsive"],
    caller_contact := some "555-0123" }

/-- Witness for C5 at the concrete demonstration incident. -/
theorem end_to_end_cardiac_call_witness :
    (process_emergency_call ⟨[]⟩ cardiacIncident "t").1.severity = 9
  ∧ (process_emergency_call ⟨[]⟩ cardiacIncident "t").1.priority = "CRITICAL"
  ∧ (process_emergency_call ⟨[]⟩ cardiacIncident "t").1.dispatch_plan
      = ["Unit-0", "Unit-1"] :=
  ⟨(end_to_end_cardiac_call ⟨[]⟩ "t" cardiacIncident rfl rfl rfl).2.1,
   (end_to_end_cardiac_call ⟨[]⟩ "t" cardiacIncident rfl rfl rfl).2.2.1,
   (end_to_end_cardiac_call ⟨[]⟩ "t" cardiacIncident rfl rfl rfl).2.2.2.2.2.2.2⟩
